import Mathlib

/-! Shallow embedding of the modernglpp resource layer (src/modernglpp.h,
src/modernglpp.cc, with the dispatch specializations of src/example.cc).
Device-API calls are recorded as explicit events or as explicit state;
machine pointers are modeled as natural-number addresses; sizeof(float) = 4. -/

namespace Mgl

/-! Device constants, with the numeric values of the GL headers. -/

def GL_COLOR_BUFFER_BIT : Nat := 0x00004000

def GL_DEPTH_BUFFER_BIT : Nat := 0x00000100

def GL_RED : Nat := 0x1903

def GL_RG : Nat := 0x8227

def GL_RGB : Nat := 0x1907

def GL_RGBA : Nat := 0x1908

def GL_BGR : Nat := 0x80E0

def GL_BGRA : Nat := 0x80E1

def GL_R8 : Nat := 0x8229

def GL_RG8 : Nat := 0x822B

def GL_RGB8 : Nat := 0x8051

def GL_RGBA8 : Nat := 0x8058

def GL_R32F : Nat := 0x822E

def GL_RG32F : Nat := 0x8230

def GL_RGB32F : Nat := 0x8815

def GL_RGBA32F : Nat := 0x8814

def GL_FLOAT : Nat := 0x1406

def GL_UNSIGNED_BYTE : Nat := 0x1401

def GL_INVALID_ENUM : Nat := 0x0500

def GL_TEXTURE0 : Int := 0x84C0

def GL_TEXTURE_2D : Nat := 0x0DE1

def GL_ARRAY_BUFFER : Nat := 0x8892

def GL_ELEMENT_ARRAY_BUFFER : Nat := 0x8893

def GL_UNIFORM_BUFFER : Nat := 0x8A11

def GL_SHADER_STORAGE_BUFFER : Nat := 0x90D2

def GL_TRIANGLES : Nat := 0x0004

def GL_LINES : Nat := 0x0001

def GL_POINTS : Nat := 0x0000

def GL_LINEAR : Nat := 0x2601

def GL_NEAREST : Nat := 0x2600

def GL_CLAMP_TO_EDGE : Nat := 0x812F

def GL_CLAMP_TO_BORDER : Nat := 0x812D

def GL_MIRRORED_REPEAT : Nat := 0x8370

def GL_REPEAT : Nat := 0x2901

def GL_MIRROR_CLAMP_TO_EDGE : Nat := 0x8743

def GL_TEXTURE_MIN_FILTER : Nat := 0x2801

def GL_TEXTURE_MAG_FILTER : Nat := 0x2800

def GL_TEXTURE_WRAP_S : Nat := 0x2802

def GL_TEXTURE_WRAP_T : Nat := 0x2803

def GL_TEXTURE_WRAP_R : Nat := 0x8072

def GL_DYNAMIC_DRAW : Nat := 0x88E8

def GL_STATIC_DRAW : Nat := 0x88E4

/-! Semantic enumerations of modernglpp and their mappings to device
constants, transcribed from the enum_cast family in modernglpp.cc. -/

inductive BufferType where
  | Array | Element | Uniform | Shader
deriving DecidableEq, Repr

inductive DataType where
  | Float | Byte
deriving DecidableEq, Repr

inductive DrawMode where
  | Triangles | Lines | Points
deriving DecidableEq, Repr

inductive TextureFormat where
  | RED | RG | RGB | RGBA | BGR | BGRA
  | R8u | RG8u | RGB8u | RGBA8u
  | R32f | RG32f | RGB32f | RGBA32f
deriving DecidableEq, Repr

inductive TextureFilterMode where
  | Linear | Nearest
deriving DecidableEq, Repr

inductive TextureWrapMode where
  | ClampToEdge | ClampToBorder | MirroredRepeat | Repeat | MirrorClampToEdge
deriving DecidableEq, Repr

def DataType.enum_cast : DataType → Nat
  | .Float => GL_FLOAT
  | .Byte => GL_UNSIGNED_BYTE

def BufferType.enum_cast : BufferType → Nat
  | .Array => GL_ARRAY_BUFFER
  | .Element => GL_ELEMENT_ARRAY_BUFFER
  | .Uniform => GL_UNIFORM_BUFFER
  | .Shader => GL_SHADER_STORAGE_BUFFER

def DrawMode.enum_cast : DrawMode → Nat
  | .Triangles => GL_TRIANGLES
  | .Lines => GL_LINES
  | .Points => GL_POINTS

def TextureFormat.enum_cast : TextureFormat → Nat
  | .RED => GL_RED
  | .RG => GL_RG
  | .RGB => GL_RGB
  | .RGBA => GL_RGBA
  | .BGR => GL_BGR
  | .BGRA => GL_BGRA
  | .R8u => GL_R8
  | .RG8u => GL_RG8
  | .RGB8u => GL_RGB8
  | .RGBA8u => GL_RGBA8
  | .R32f => GL_R32F
  | .RG32f => GL_RG32F
  | .RGB32f => GL_RGB32F
  | .RGBA32f => GL_RGBA32F

def TextureFilterMode.enum_cast : TextureFilterMode → Nat
  | .Linear => GL_LINEAR
  | .Nearest => GL_NEAREST

def TextureWrapMode.enum_cast : TextureWrapMode → Nat
  | .ClampToEdge => GL_CLAMP_TO_EDGE
  | .ClampToBorder => GL_CLAMP_TO_BORDER
  | .MirroredRepeat => GL_MIRRORED_REPEAT
  | .Repeat => GL_REPEAT
  | .MirrorClampToEdge => GL_MIRROR_CLAMP_TO_EDGE

/-- sizedToBase of modernglpp.cc: the switch covers exactly the eight sized
formats; every other format falls through to the final return of the
argument itself. -/
def sizedToBase : TextureFormat → TextureFormat
  | .R8u => .RED
  | .R32f => .RED
  | .RG8u => .RG
  | .RG32f => .RG
  | .RGB8u => .RGB
  | .RGB32f => .RGB
  | .RGBA8u => .RGBA
  | .RGBA32f => .RGBA
  | f => f

/-- Number of colour channels a format names (R variants one, RG two,
RGB and BGR three, RGBA and BGRA four). -/
def channelCount : TextureFormat → Nat
  | .RED | .R8u | .R32f => 1
  | .RG | .RG8u | .RG32f => 2
  | .RGB | .BGR | .RGB8u | .RGB32f => 3
  | .RGBA | .BGRA | .RGBA8u | .RGBA32f => 4

/-- Whether a format is one of the eight sized forms of the enumeration. -/
def TextureFormat.isSized : TextureFormat → Bool
  | .R8u | .RG8u | .RGB8u | .RGBA8u | .R32f | .RG32f | .RGB32f | .RGBA32f => true
  | _ => false

/-! The clear entry point. The C++ body is
glClear(clearColour ? GL_COLOR_BUFFER_BIT : 0 | clearDepth ? GL_DEPTH_BUFFER_BIT : 0);
and C++ operator precedence parses the third operand of the outer conditional
as ((0 | clearDepth) ? GL_DEPTH_BUFFER_BIT : 0). -/

def boolToInt (b : Bool) : Nat := if b then 1 else 0

/-- The flag word clear passes to glClear, parsed with C++ precedence. -/
def clearFlags (clearColour clearDepth : Bool) : Nat :=
  if clearColour then GL_COLOR_BUFFER_BIT
  else if (0 ||| boolToInt clearDepth) ≠ 0 then GL_DEPTH_BUFFER_BIT
  else 0

/-! The typed view of modernglpp.h: a (pointer, length) pair. Only the
float instantiation reaches the uniform primitives; the pointer is an
address here. -/

structure View where
  first : Nat
  len : Nat
deriving DecidableEq, Repr

/-- Element count computed by View.fromObject: sizeof(Object) / sizeof(float),
with sizeof(float) = 4. -/
def View.fromObjectLen (objectSize : Nat) : Nat := objectSize / 4

/-- View.fromObject of modernglpp.h: reinterpret the storage of an object at
a given address and byte size as a view of its float components, no copy. -/
def View.fromObject (objectAddr objectSize : Nat) : View :=
  { first := objectAddr, len := View.fromObjectLen objectSize }

/-! Uniform dispatch. Each set_uniform_* primitive of modernglpp.cc asserts
a fixed element count on its view argument; the Uniform specializations of
modernglpp.cc (float, int, Sampler) pass an explicit one-element view, and
those of example.cc (glm vec2/vec3/vec4/mat3/mat4) pass View.fromObject of
the value. glm types are tightly packed floats: sizeof(vec2) = 8,
sizeof(vec3) = 12, sizeof(vec4) = 16, sizeof(mat3) = 36, sizeof(mat4) = 64. -/

inductive UniformPrim where
  | f1 | f2 | f3 | f4
  | i1 | i2 | i3 | i4
  | m3x2 | m3x3 | m4x2 | m4x3 | m4x4
deriving DecidableEq, Repr

/-- The element count each set_uniform_* primitive asserts (MGL_ASSERT
(data.size() == ...) in modernglpp.cc). -/
def primArity : UniformPrim → Nat
  | .f1 => 1
  | .f2 => 2
  | .f3 => 3
  | .f4 => 4
  | .i1 => 1
  | .i2 => 2
  | .i3 => 3
  | .i4 => 4
  | .m3x2 => 3 * 2
  | .m3x3 => 3 * 3
  | .m4x2 => 4 * 2
  | .m4x3 => 4 * 3
  | .m4x4 => 4 * 4

/-- The semantic value types with a Uniform specialization in the sources. -/
inductive SemType where
  | float | int | sampler | vec2 | vec3 | vec4 | mat3 | mat4
deriving DecidableEq, Repr

/-- Byte size of the C++ value of each semantic type (glm types are packed
arrays of 4-byte floats; Sampler is an int plus a pointer). -/
def glmSizeof : SemType → Nat
  | .float => 4
  | .int => 4
  | .sampler => 16
  | .vec2 => 8
  | .vec3 => 12
  | .vec4 => 16
  | .mat3 => 36
  | .mat4 => 64

/-- Which upload primitive the Uniform specialization of each semantic type
invokes (modernglpp.cc for float, int and Sampler; example.cc for the glm
vector and matrix types). -/
def uniformTarget : SemType → UniformPrim
  | .float => .f1
  | .int => .i1
  | .sampler => .i1
  | .vec2 => .f2
  | .vec3 => .f3
  | .vec4 => .f4
  | .mat3 => .m3x3
  | .mat4 => .m4x4

/-- The element count of the view each Uniform specialization passes to its
primitive: an explicit count of one for float, int and Sampler, and
View.fromObject of the value for the glm types. -/
def uniformViewLen : SemType → Nat
  | .float => 1
  | .int => 1
  | .sampler => 1
  | .vec2 => View.fromObjectLen (glmSizeof .vec2)
  | .vec3 => View.fromObjectLen (glmSizeof .vec3)
  | .vec4 => View.fromObjectLen (glmSizeof .vec4)
  | .mat3 => View.fromObjectLen (glmSizeof .mat3)
  | .mat4 => View.fromObjectLen (glmSizeof .mat4)

/-- The arity the claim assigns to each semantic type: 1 for scalars and
samplers, 2/3/4 for vectors, 9/16 for the 3x3/4x4 matrices. -/
def semArity : SemType → Nat
  | .float => 1
  | .int => 1
  | .sampler => 1
  | .vec2 => 2
  | .vec3 => 3
  | .vec4 => 4
  | .mat3 => 9
  | .mat4 => 16

/-! Sampler, from modernglpp.cc lines 264-275 and its declaration in
modernglpp.h. The texture member is a possibly-null pointer to a Texture,
modeled as an optional device texture handle. The constructor
Sampler(int slotIndex) : index(slotIndex) {} initializes only the index
member; the texture member keeps whatever bits its storage already held. -/

structure Sampler where
  index : Int
  texture : Option Nat
deriving DecidableEq, Repr

/-- The Sampler constructor: index is set to the slot argument, the texture
member is left default-initialized, i.e. it holds the indeterminate prior
contents of the storage of the object, passed here explicitly. -/
def Sampler.construct (slotIndex : Int) (storageJunk : Option Nat) : Sampler :=
  { index := slotIndex, texture := storageJunk }

def Sampler.setTexture (s : Sampler) (t : Option Nat) : Sampler :=
  { s with texture := t }

/-- Sampler bind: glActiveTexture(GL_TEXTURE0 + index) and
glBindTexture(GL_TEXTURE_2D, texture ? texture->handle : 0); returned as the
pair (active texture unit, bound texture handle). -/
def Sampler.bind (s : Sampler) : Int × Nat :=
  (GL_TEXTURE0 + s.index, match s.texture with
    | some h => h
    | none => 0)

/-! Texture creation, from Texture::make in modernglpp.cc. The
TextureSourceData descriptor carries its own format, element type and data
pointer; the glTexImage2D argument tuple is recorded. -/

structure TextureSourceData where
  format : TextureFormat
  type : DataType
  dataPtr : Nat
deriving DecidableEq, Repr

structure TexImageCall where
  internalFormat : Nat
  width : Int
  height : Int
  srcFormat : Nat
  srcType : Nat
  dataPtr : Nat
deriving DecidableEq, Repr

/-- The glTexImage2D argument tuple issued by Texture::make: with a
descriptor, source format enum_cast(sizedToBase(desc->format)) and type
enum_cast(desc->type); without one, enum_cast(sizedToBase(deviceFormat)),
GL_UNSIGNED_BYTE and a null pointer. -/
def Texture.makeUpload (w h : Int) (deviceFormat : TextureFormat)
    (desc : Option TextureSourceData) : TexImageCall :=
  match desc with
  | some d =>
    { internalFormat := deviceFormat.enum_cast, width := w, height := h,
      srcFormat := (sizedToBase d.format).enum_cast,
      srcType := d.type.enum_cast, dataPtr := d.dataPtr }
  | none =>
    { internalFormat := deviceFormat.enum_cast, width := w, height := h,
      srcFormat := (sizedToBase deviceFormat).enum_cast,
      srcType := GL_UNSIGNED_BYTE, dataPtr := 0 }

/-! Event traces. Each device call or allocator call an operation performs
is recorded as one event, in program order. allocate and free name the
address the installed allocator returns or receives. -/

inductive Event where
  | allocate (ptr : Nat)
  | free (ptr : Nat)
  | glGenBuffers (h : Nat)
  | glBindBuffer (target h : Nat)
  | glBufferData (target size usage : Nat)
  | glBufferSubData (target offset len ptr : Nat)
  | glDeleteBuffers (h : Nat)
  | glGenVertexArrays (h : Nat)
  | glBindVertexArray (h : Nat)
  | glDeleteVertexArrays (h : Nat)
  | glDrawArrays (mode : Nat) (offset count : Int)
  | glBindTexture (target h : Nat)
  | glTexSubImage2D (x y w h : Int) (fmt typ ptr : Nat)
  | glTexParameteri (pname value : Nat)
  | glDeleteTextures (h : Nat)
  | glUseProgram (h : Nat)
  | glActiveTexture (unit : Int)
deriving DecidableEq, Repr

/-- Recognizer for the device-level buffer-destroy event. -/
def Event.isBufferDelete : Event → Bool
  | .glDeleteBuffers _ => true
  | _ => false

/-! Buffer, from modernglpp.cc. storage is the address newObject obtained
from the installed allocator for the object itself. -/

structure Buffer where
  storage : Nat
  handle : Nat
  size : Nat
  type : BufferType
deriving DecidableEq, Repr

/-- Events of Buffer::make: glGenBuffers, glBindBuffer, glBufferData, then
the allocator allocation of the object storage inside newObject. -/
def Buffer.makeEvents (b : Buffer) (dynamic : Bool) : List Event :=
  [ .glGenBuffers b.handle,
    .glBindBuffer b.type.enum_cast b.handle,
    .glBufferData b.type.enum_cast b.size
      (if dynamic then GL_DYNAMIC_DRAW else GL_STATIC_DRAW),
    .allocate b.storage ]

/-- Events of the Buffer destructor: glDeleteBuffers on the handle, and
nothing else. -/
def Buffer.destructorEvents (b : Buffer) : List Event :=
  [ .glDeleteBuffers b.handle ]

def Buffer.bind (b : Buffer) : Buffer × List Event :=
  (b, [ .glBindBuffer b.type.enum_cast b.handle ])

/-- Buffer::write(data, len, offset): bind then glBufferSubData(target,
offset, len, data); no member is assigned. -/
def Buffer.write (b : Buffer) (dataPtr len offset : Nat) : Buffer × List Event :=
  (b, [ .glBindBuffer b.type.enum_cast b.handle,
        .glBufferSubData b.type.enum_cast offset len dataPtr ])

/-! VertexArray, from modernglpp.cc. attachedBuffers holds the owned Buffer
objects the pointer array refers to; linksPtr is the address of the
allocator-provided pointer array, storage the address of the object itself. -/

structure VertexArray where
  storage : Nat
  handle : Nat
  attachedBuffers : List Buffer
  linksPtr : Nat
deriving DecidableEq, Repr

/-- VertexArray::getBuffers: returns the view over the attached-buffer list;
no member is assigned. -/
def VertexArray.getBuffers (v : VertexArray) : VertexArray × List Buffer :=
  (v, v.attachedBuffers)

/-- Events of VertexArray::make: generate and bind the vertex array, run the
caller callback, then allocate the pointer-array storage and the object
storage from the installed allocator. -/
def VertexArray.makeEvents (v : VertexArray) (callbackEvents : List Event) : List Event :=
  [ .glGenVertexArrays v.handle, .glBindVertexArray v.handle ]
    ++ callbackEvents
    ++ [ .allocate v.linksPtr, .allocate v.storage ]

/-- Events of the VertexArray destructor: glDeleteVertexArrays on the own
handle, then for each buffer of getBuffers() the explicit destructor call
buffer->~Buffer() (its events), then allocator->free of the pointer array.
No allocator->free of the Buffer objects themselves appears in the body. -/
def VertexArray.destructorEvents (v : VertexArray) : List Event :=
  .glDeleteVertexArrays v.handle ::
    (((VertexArray.getBuffers v).2.map Buffer.destructorEvents).flatten
      ++ [ .free v.linksPtr ])

def VertexArray.bind (v : VertexArray) : VertexArray × List Event :=
  (v, [ .glBindVertexArray v.handle ])

/-- VertexArray::draw: a switch on the mode issuing one glDrawArrays; no
member is assigned. -/
def VertexArray.draw (v : VertexArray) (mode : DrawMode) (offset count : Int) :
    VertexArray × List Event :=
  (v, [ .glDrawArrays mode.enum_cast offset count ])

/-! Texture object and its mutating operations, from modernglpp.cc. -/

structure Texture where
  storage : Nat
  handle : Nat
  format : TextureFormat
deriving DecidableEq, Repr

structure TextureFilter where
  min : TextureFilterMode
  mag : TextureFilterMode
deriving DecidableEq, Repr

structure TextureWrap where
  s : TextureWrapMode
  t : TextureWrapMode
  r : TextureWrapMode
deriving DecidableEq, Repr

structure TextureOptions where
  filter : TextureFilter
  wrap : TextureWrap
deriving DecidableEq, Repr

/-- Texture::write: bind, then glTexSubImage2D with the stored format and
the caller data type; no member is assigned. -/
def Texture.write (t : Texture) (x y w h : Int) (sourceDataType : DataType)
    (dataPtr : Nat) : Texture × List Event :=
  (t, [ .glBindTexture GL_TEXTURE_2D t.handle,
        .glTexSubImage2D x y w h t.format.enum_cast
          sourceDataType.enum_cast dataPtr ])

/-- Texture::setOptions: bind, then the five glTexParameteri calls; no
member is assigned. -/
def Texture.setOptions (t : Texture) (o : TextureOptions) : Texture × List Event :=
  (t, [ .glBindTexture GL_TEXTURE_2D t.handle,
        .glTexParameteri GL_TEXTURE_MIN_FILTER o.filter.min.enum_cast,
        .glTexParameteri GL_TEXTURE_MAG_FILTER o.filter.mag.enum_cast,
        .glTexParameteri GL_TEXTURE_WRAP_S o.wrap.s.enum_cast,
        .glTexParameteri GL_TEXTURE_WRAP_T o.wrap.t.enum_cast,
        .glTexParameteri GL_TEXTURE_WRAP_R o.wrap.r.enum_cast ])

/-! Program object, from modernglpp.cc. -/

structure Program where
  storage : Nat
  handle : Nat
deriving DecidableEq, Repr

def Program.use (p : Program) : Program × List Event :=
  (p, [ .glUseProgram p.handle ])

structure UniformSetter where
  programHandle : Nat
  index : Int
deriving DecidableEq, Repr

/-- Program::uniform: resolve the location by name (the device answer is the
location argument here) and return a setter holding the program and the
location; no member is assigned. -/
def Program.uniform (p : Program) (location : Int) : Program × UniformSetter :=
  (p, { programHandle := p.handle, index := location })

/-! Program::make as a state machine over the device shader and program
objects. Handles are allocated from a counter starting at 1 so that 0 is the
null handle, as in the C++. glDeleteShader on a shader attached to a live
program only flags it; the object is destroyed when the program it is
attached to is deleted (the device deferred-deletion rule). -/

structure GLState where
  nextId : Nat
  shaders : List (Nat × Bool)
  programs : List Nat
  attachments : List (Nat × Nat)
deriving DecidableEq, Repr

def initGL : GLState := { nextId := 1, shaders := [], programs := [], attachments := [] }

def GLState.isAttached (st : GLState) (s : Nat) : Bool :=
  st.attachments.any fun a => a.2 == s

def glCreateShader (st : GLState) : GLState × Nat :=
  ({ st with nextId := st.nextId + 1, shaders := st.shaders ++ [(st.nextId, false)] },
   st.nextId)

def glDeleteShader (st : GLState) (s : Nat) : GLState :=
  if st.isAttached s then
    { st with shaders := st.shaders.map fun p => if p.1 == s then (p.1, true) else p }
  else
    { st with shaders := st.shaders.filter fun p => p.1 != s }

def glCreateProgram (st : GLState) : GLState × Nat :=
  ({ st with nextId := st.nextId + 1, programs := st.programs ++ [st.nextId] },
   st.nextId)

def glAttachShader (st : GLState) (p s : Nat) : GLState :=
  { st with attachments := st.attachments ++ [(p, s)] }

def glDeleteProgram (st : GLState) (p : Nat) : GLState :=
  let detached := (st.attachments.filter fun a => a.1 == p).map (·.2)
  let st1 : GLState :=
    { st with programs := st.programs.filter fun q => q != p,
              attachments := st.attachments.filter fun a => a.1 != p }
  { st1 with shaders := st1.shaders.filter fun sh =>
      ! (sh.2 && detached.contains sh.1 && ! st1.isAttached sh.1) }

/-- The compile lambda inside Program::make: create a shader, compile it
(success given by the oracle flag), and on failure write the log, delete the
shader and return the null handle. -/
def compileStage (ok : Bool) (st : GLState) : GLState × Nat :=
  let (st1, s) := glCreateShader st
  if ok then (st1, s)
  else (glDeleteShader st1 s, 0)

/-- Program::make over the device state: compile the vertex stage, and only
if it succeeded the fragment stage; if either returns the null handle,
return null. Otherwise create a program, attach both shaders, delete both
shaders (deferred: they are attached), link; on link failure delete the
program and return null, else return the program. -/
def programMake (vsOk fsOk linkOk : Bool) (st : GLState) : GLState × Option Nat :=
  let (st1, vs) := compileStage vsOk st
  if vs == 0 then (st1, none)
  else
    let (st2, fs) := compileStage fsOk st1
    if fs == 0 then (st2, none)
    else
      let (st3, p) := glCreateProgram st2
      let st4 := glAttachShader st3 p vs
      let st5 := glAttachShader st4 p fs
      let st6 := glDeleteShader st5 vs
      let st7 := glDeleteShader st6 fs
      if linkOk then (st7, some p)
      else (glDeleteProgram st7 p, none)

/-! Concrete scenario for the allocator-pairing claim: one Buffer made
through the allocator, attached to a VertexArray, then destroyed with it. -/

def c5buffer : Buffer := ⟨100, 1, 4096, BufferType.Array⟩

def c5vao : VertexArray := ⟨200, 7, [c5buffer], 300⟩

def c5trace : List Event :=
  Buffer.makeEvents c5buffer true ++ VertexArray.makeEvents c5vao []
    ++ c5vao.destructorEvents

/-! Helper lemmas about the destructor trace of a vertex array. -/

theorem flatten_map_destructorEvents (l : List Buffer) :
    (l.map Buffer.destructorEvents).flatten
      = l.map fun b => Event.glDeleteBuffers b.handle := by
  induction l with
  | nil => rfl
  | cons b l ih => simp [Buffer.destructorEvents, ih]

theorem countP_map_glDeleteBuffers (l : List Buffer) :
    (l.map fun b => Event.glDeleteBuffers b.handle).countP Event.isBufferDelete
      = l.length := by
  induction l with
  | nil => rfl
  | cons b l ih => simp [List.countP_cons, Event.isBufferDelete, ih]

/-! Theorems settling the claims. -/

/-- Claim C1: every Uniform specialization passes its upload primitive a
view whose element count equals the count that primitive asserts
(MGL_ASSERT in each set_uniform_*), and that count is the defined arity of
the semantic type: 1 for float, int and Sampler, 2/3/4 for the vectors,
9/16 for the 3x3/4x4 matrices. So the arity assertion holds on every such
call. -/
theorem uniform_dispatch_arity_ok :
    ∀ t : SemType,
      uniformViewLen t = primArity (uniformTarget t)
        ∧ uniformViewLen t = semArity t := by
  intro t
  cases t <;> exact ⟨rfl, rfl⟩

/-- Claim C2 (refuting evaluation): when the vertex stage compiles and the
fragment stage fails, Program::make returns null but the compiled vertex
shader object (handle 1) is still a live, unflagged shader object — it is
never deleted before returning. The vertex-failure and link-failure paths
do clean up fully, and the all-success path returns a program. -/
theorem program_make_leaks_vertex_shader :
    (programMake true false true initGL).2 = none ∧
    (programMake true false true initGL).1.shaders = [(1, false)] ∧
    (programMake false true true initGL).2 = none ∧
    (programMake false true true initGL).1.shaders = [] ∧
    (programMake false true true initGL).1.programs = [] ∧
    (programMake true true false initGL).2 = none ∧
    (programMake true true false initGL).1.shaders = [] ∧
    (programMake true true false initGL).1.programs = [] ∧
    (programMake true true true initGL).2 = some 3 := by
  decide

/-- Claim C3 (refuting evaluation): clear with clearColour and clearDepth
both true passes glClear a flag word equal to GL_COLOR_BUFFER_BIT alone, so
the depth-clear bit is absent although clearDepth is true; the depth bit
appears only when clearColour is false. The two flags are therefore not
independently configurable as claimed. -/
theorem clear_flags_drop_depth_bit :
    clearFlags true true = GL_COLOR_BUFFER_BIT ∧
    clearFlags true true &&& GL_DEPTH_BUFFER_BIT = 0 ∧
    clearFlags true false = GL_COLOR_BUFFER_BIT ∧
    clearFlags false true = GL_DEPTH_BUFFER_BIT ∧
    clearFlags false false = 0 := by
  decide

/-- Claim C4: destroying a VertexArray owning N buffers emits first the
device vertex-array release, then exactly one device buffer-destroy per
owned buffer, in list order (N of them), and last the allocator free of the
ownership-link storage; a vertex array made with an empty buffer list emits
zero buffer-destroys, one owning two buffers emits exactly two. -/
theorem vertexArray_destructor_order :
    (∀ v : VertexArray,
      v.destructorEvents =
        Event.glDeleteVertexArrays v.handle ::
          ((v.attachedBuffers.map fun b => Event.glDeleteBuffers b.handle)
            ++ [Event.free v.linksPtr]) ∧
      v.destructorEvents.countP Event.isBufferDelete
        = v.attachedBuffers.length) ∧
    (VertexArray.destructorEvents ⟨10, 5, [], 30⟩ =
      [Event.glDeleteVertexArrays 5, Event.free 30]) ∧
    (VertexArray.destructorEvents
        ⟨10, 5, [⟨11, 1, 64, BufferType.Array⟩, ⟨12, 2, 64, BufferType.Element⟩], 30⟩ =
      [Event.glDeleteVertexArrays 5, Event.glDeleteBuffers 1,
       Event.glDeleteBuffers 2, Event.free 30]) := by
  refine ⟨fun v => ⟨?_, ?_⟩, by decide, by decide⟩
  · simp [VertexArray.destructorEvents, VertexArray.getBuffers,
          flatten_map_destructorEvents]
  · simp [VertexArray.destructorEvents, VertexArray.getBuffers,
          flatten_map_destructorEvents, List.countP_cons, List.countP_append,
          Event.isBufferDelete, countP_map_glDeleteBuffers]

/-- Claim C5 (refuting evaluation): over the life of a Buffer whose object
storage (address 100) was obtained from the installed allocator, attached
to a VertexArray and destroyed by that VertexArray, the trace holds the
allocation of address 100 and the device-level destruction of buffer
handle 1, and it frees the ownership-link storage (address 300), but it
holds no allocator free of address 100: the VertexArray destructor only
invokes the Buffer destructor and never returns the object storage to the
allocator. -/
theorem vertexArray_destroy_skips_buffer_storage_free :
    Event.allocate 100 ∈ c5trace ∧
    Event.glDeleteBuffers 1 ∈ c5trace ∧
    Event.free 300 ∈ c5trace ∧
    Event.free 100 ∉ c5trace := by
  decide

/-- Claim C6 (counterexample): Texture::make with device storage format
RGBA32f and a source descriptor whose own format field is RED issues the
upload with source format enum_cast(RED), which differs from
enum_cast(sizedToBase(RGBA32f)) = enum_cast(RGBA): the source format is
derived from the descriptor format, not from the device storage format
parameter. -/
theorem texture_make_upload_format_cex :
    ¬ ((Texture.makeUpload 1 1 TextureFormat.RGBA32f
          (some ⟨TextureFormat.RED, DataType.Byte, 5⟩)).srcFormat
        = (sizedToBase TextureFormat.RGBA32f).enum_cast) := by
  decide

/-- Claim C6 (amended): whenever Texture::make is called with a non-null
source descriptor, the upload source format equals the base-shape reduction
sizedToBase of the descriptor format field, the element type equals the
descriptor data type, the data pointer is the descriptor pointer, and the
internal (device storage) format is the format parameter given to make. -/
theorem texture_make_upload_uses_descriptor_format :
    ∀ (w h : Int) (deviceFormat : TextureFormat) (d : TextureSourceData),
      (Texture.makeUpload w h deviceFormat (some d)).srcFormat
          = (sizedToBase d.format).enum_cast ∧
      (Texture.makeUpload w h deviceFormat (some d)).srcType
          = d.type.enum_cast ∧
      (Texture.makeUpload w h deviceFormat (some d)).dataPtr = d.dataPtr ∧
      (Texture.makeUpload w h deviceFormat (some d)).internalFormat
          = deviceFormat.enum_cast :=
  fun _ _ _ _ => ⟨rfl, rfl, rfl, rfl⟩

/-- Claim C7: View.fromObject yields a view whose element count is the
object byte size divided by sizeof(float) = 4 and whose data pointer is the
object address itself (no copy of the storage); at the glm sizes this gives
16 elements for a 4x4 matrix, 3 for a 3-vector and 9 for a 3x3 matrix. -/
theorem view_fromObject_arities :
    ∀ addr objectSize : Nat,
      (View.fromObject addr objectSize).len = objectSize / 4 ∧
      (View.fromObject addr objectSize).first = addr ∧
      (View.fromObject addr (glmSizeof SemType.mat4)).len = 16 ∧
      (View.fromObject addr (glmSizeof SemType.vec3)).len = 3 ∧
      (View.fromObject addr (glmSizeof SemType.mat3)).len = 9 :=
  fun _ _ => ⟨rfl, rfl, rfl, rfl, rfl⟩

/-- Claim C8: sizedToBase is a pure function (a Lean function, so mapping
the same format twice yields the same result), it is idempotent, its result
is never a sized format, it preserves the channel count of every format,
and it sends each sized R/RG/RGB/RGBA variant to the base shape of the same
channel count. -/
theorem sizedToBase_idempotent_and_channels :
    (∀ f : TextureFormat,
      sizedToBase (sizedToBase f) = sizedToBase f ∧
      (sizedToBase f).isSized = false ∧
      channelCount (sizedToBase f) = channelCount f) ∧
    sizedToBase TextureFormat.R8u = TextureFormat.RED ∧
    sizedToBase TextureFormat.R32f = TextureFormat.RED ∧
    sizedToBase TextureFormat.RG8u = TextureFormat.RG ∧
    sizedToBase TextureFormat.RG32f = TextureFormat.RG ∧
    sizedToBase TextureFormat.RGB8u = TextureFormat.RGB ∧
    sizedToBase TextureFormat.RGB32f = TextureFormat.RGB ∧
    sizedToBase TextureFormat.RGBA8u = TextureFormat.RGBA ∧
    sizedToBase TextureFormat.RGBA32f = TextureFormat.RGBA := by
  refine ⟨?_, rfl, rfl, rfl, rfl, rfl, rfl, rfl, rfl⟩
  intro f
  cases f <;> exact ⟨rfl, rfl, rfl⟩

/-- Claim C9 (counterexample): a Sampler constructed over storage whose
indeterminate prior contents happen to reference a texture with handle 7,
on which setTexture has never been called since construction, binds texture
handle 7 and not the null handle 0. -/
theorem sampler_uninitialized_bind_cex :
    ¬ ((Sampler.construct 0 (some 7)).bind.2 = 0) := by
  decide

/-- Claim C9 (amended): the slot index is fixed at construction and is not
changed by setTexture; bind activates the device texture unit
GL_TEXTURE0 + index and binds the referenced texture handle, the null
handle 0 exactly when the texture member is null. The constructor, however,
leaves the texture member holding the indeterminate prior contents of its
storage, so a Sampler on which setTexture has never been called binds the
null handle only when that storage happened to be null (as with the
zero-initialized static Sampler of example.cc). -/
theorem sampler_bind_of_texture_member :
    ∀ (slotIndex : Int) (storageJunk : Option Nat) (s : Sampler) (t : Option Nat),
      (Sampler.construct slotIndex storageJunk).index = slotIndex ∧
      (Sampler.construct slotIndex storageJunk).texture = storageJunk ∧
      (s.setTexture t).index = s.index ∧
      (s.setTexture t).texture = t ∧
      s.bind = (GL_TEXTURE0 + s.index, s.texture.getD 0) := by
  intro slotIndex storageJunk s t
  refine ⟨rfl, rfl, rfl, rfl, ?_⟩
  cases h : s.texture <;> simp [Sampler.bind, h]

/-- Claim C10: every operation of Buffer, Texture, Program and VertexArray
other than make and destruction returns its object with every field
unchanged (handle, size, type, format, attached-buffer list); only
device-side events are emitted. -/
theorem non_make_ops_preserve_fields :
    (∀ b : Buffer, (Buffer.bind b).1 = b) ∧
    (∀ (b : Buffer) (dataPtr len offset : Nat),
      (Buffer.write b dataPtr len offset).1 = b) ∧
    (∀ (t : Texture) (x y w h : Int) (dt : DataType) (ptr : Nat),
      (Texture.write t x y w h dt ptr).1 = t) ∧
    (∀ (t : Texture) (o : TextureOptions), (Texture.setOptions t o).1 = t) ∧
    (∀ p : Program, (Program.use p).1 = p) ∧
    (∀ (p : Program) (location : Int), (Program.uniform p location).1 = p) ∧
    (∀ v : VertexArray, (VertexArray.bind v).1 = v) ∧
    (∀ (v : VertexArray) (m : DrawMode) (o c : Int),
      (VertexArray.draw v m o c).1 = v) ∧
    (∀ v : VertexArray, (VertexArray.getBuffers v).1 = v) :=
  ⟨fun _ => rfl, fun _ _ _ _ => rfl, fun _ _ _ _ _ _ _ => rfl, fun _ _ => rfl,
   fun _ => rfl, fun _ _ => rfl, fun _ => rfl, fun _ _ _ _ => rfl, fun _ => rfl⟩

end Mgl
